import Mathlib

/-!
Shallow embedding of `crates/turborepo-api-client/src/spaces.rs`: the Spaces
reporting payloads, their serde serialization, and the preflight-aware request
assembly in `APIClient`, together with the three public reporting operations.

External effects (the preflight probe, the CI vendor detector, the retrying
transport, response-body deserialization) are passed in as explicit inputs so
that the control flow of the source functions can be stated and proved as pure
facts. Collaborator pieces that live outside this file's source (for example
`make_url` and `add_team_params` from the client crate) are modelled from the
spec and marked as such in their doc comments.
-/

/-- A JSON value, the target of the serde `Serialize` derives in the source. -/
inductive Json where
  | str (s : String)
  | num (n : Int)
  | null
  | arr (xs : List Json)
  | obj (fields : List (String × Json))

/-- Look a key up in a JSON object (first match); `none` on non-objects. -/
def Json.lookup (j : Json) (key : String) : Option Json :=
  match j with
  | .obj fields => fields.lookup key
  | _ => none

/-- HTTP methods used by this client (`reqwest::Method`). -/
inductive Method where
  | GET
  | POST
  | PATCH
  | OPTIONS
deriving DecidableEq

/-- Modelled from the spec: the error taxonomy of section 7. `TransportError`
is a network failure after the transport's retries are exhausted;
`StatusError` is the remote-rejection case (the real request completed but the
server returned a non-2xx status), carrying the status and body; and
`DeserializationError` is a 2xx response whose body did not match the expected
shape. A preflight failure is whichever of these errors the probe produced,
propagated unchanged. -/
inductive Error where
  | TransportError
  | StatusError (status : Nat) (body : String)
  | DeserializationError
deriving DecidableEq

/-- An HTTP response: status code and body. -/
structure Response where
  status : Nat
  body : String
deriving DecidableEq

/-- Whether the status is a 2xx success. -/
def Response.is_success (r : Response) : Bool :=
  decide (200 ≤ r.status) && decide (r.status < 300)

/-- Modelled from the spec: the `error_for_status`-style status-to-error
classification performed on the transport's response (section 4.4 / 7): a
non-2xx status becomes a remote-rejection error carrying the status and
body. -/
def Response.error_for_status (r : Response) : Except Error Response :=
  if r.is_success then Except.ok r else Except.error (Error.StatusError r.status r.body)

/-- A not-yet-sent request descriptor (`reqwest::RequestBuilder`): method,
target URL, accumulated headers and query parameters, optional JSON body. -/
structure RequestBuilder where
  method : Method
  url : String
  headers : List (String × String)
  query : List (String × String)
  body : Option Json

/-- Start a request for a method against a URL (`client.request(method, url)`). -/
def RequestBuilder.request (method : Method) (url : String) : RequestBuilder :=
  { method := method, url := url, headers := [], query := [], body := none }

/-- Append a header (`RequestBuilder::header`). -/
def RequestBuilder.header (rb : RequestBuilder) (key value : String) : RequestBuilder :=
  { rb with headers := rb.headers ++ [(key, value)] }

/-- Append a query parameter (`RequestBuilder::query`). -/
def RequestBuilder.add_query (rb : RequestBuilder) (key value : String) : RequestBuilder :=
  { rb with query := rb.query ++ [(key, value)] }

/-- Attach a JSON body (`RequestBuilder::json`). -/
def RequestBuilder.json (rb : RequestBuilder) (b : Json) : RequestBuilder :=
  { rb with body := some b }

/-- `APIAuth` from the client crate: bearer token, team id, optional team
slug, destructured by `create_request_builder`. -/
structure APIAuth where
  token : String
  team_id : String
  team_slug : Option String

/-- Modelled from the spec: the preflight verdict (section 3,
`PreflightVerdict`) returned by `do_preflight` in the client crate —
whether the Authorization header may be forwarded, and the canonical URL the
real request must target. -/
structure PreflightResponse where
  allow_authorization_header : Bool
  location : String

/-- Modelled from the spec: a recognized CI vendor as returned by the
CI-vendor detector (`turborepo_ci::Vendor`), carrying its provenance
constant. -/
structure Vendor where
  constant : String

/-- Modelled from the spec: the run handle (`turborepo_vercel_api::SpaceRun`)
deserialized from a successful `create_space_run` response — an identifier
plus server-assigned metadata, opaque to this subsystem. -/
structure SpaceRun where
  id : String
deriving DecidableEq

/-- `RunStatus`, serialized with `rename_all = "lowercase"`. -/
inductive RunStatus where
  | Running
  | Completed
deriving DecidableEq

/-- Serde serialization of `RunStatus` (`rename_all = "lowercase"`). -/
def RunStatus.serialize : RunStatus → Json
  | .Running => Json.str "running"
  | .Completed => Json.str "completed"

/-- `SpaceRunType`, serialized with `rename_all = "UPPERCASE"`. -/
inductive SpaceRunType where
  | Turbo
deriving DecidableEq

/-- Serde serialization of `SpaceRunType` (`rename_all = "UPPERCASE"`). -/
def SpaceRunType.serialize : SpaceRunType → Json
  | .Turbo => Json.str "TURBO"

/-- `SpaceClientSummary`: client descriptor embedded in the run-start
payload. -/
structure SpaceClientSummary where
  id : String
  name : String
  version : String

/-- Serde serialization of `SpaceClientSummary` (no rename attribute: field
names are kept). -/
def SpaceClientSummary.serialize (c : SpaceClientSummary) : Json :=
  Json.obj [("id", Json.str c.id), ("name", Json.str c.name),
    ("version", Json.str c.version)]

/-- Serde serialization of an `Option<String>` field: `null` when absent. -/
def serializeOptStr : Option String → Json
  | some s => Json.str s
  | none => Json.null

/-- `SpacesCacheStatus`. -/
structure SpacesCacheStatus where
  status : String
  source : Option String
  time_saved : Nat

/-- Serde serialization of `SpacesCacheStatus` (no rename attribute). -/
def SpacesCacheStatus.serialize (c : SpacesCacheStatus) : Json :=
  Json.obj [("status", Json.str c.status), ("source", serializeOptStr c.source),
    ("time_saved", Json.num c.time_saved)]

/-- `SpaceTaskSummary`: one record per completed task. -/
structure SpaceTaskSummary where
  key : String
  name : String
  workspace : String
  hash : String
  start_time : Int
  end_time : Int
  cache : SpacesCacheStatus
  exit_code : Nat
  dependencies : List String
  dependents : List String
  logs : String

/-- Serde serialization of `SpaceTaskSummary` (no rename attribute). -/
def SpaceTaskSummary.serialize (t : SpaceTaskSummary) : Json :=
  Json.obj [("key", Json.str t.key), ("name", Json.str t.name),
    ("workspace", Json.str t.workspace), ("hash", Json.str t.hash),
    ("start_time", Json.num t.start_time), ("end_time", Json.num t.end_time),
    ("cache", t.cache.serialize), ("exit_code", Json.num t.exit_code),
    ("dependencies", Json.arr (t.dependencies.map Json.str)),
    ("dependents", Json.arr (t.dependents.map Json.str)),
    ("logs", Json.str t.logs)]

/-- `CreateSpaceRunPayload`: the run-start record. -/
structure CreateSpaceRunPayload where
  start_time : Int
  status : RunStatus
  ty : SpaceRunType
  command : String
  package_inference_root : String
  run_context : String
  git_branch : Option String
  git_sha : Option String
  user : String
  client : SpaceClientSummary

/-- Serde serialization of `CreateSpaceRunPayload`
(`rename_all = "camelCase"` with explicit renames: `ty` to `"type"`,
`package_inference_root` to `"repositoryPath"`, `run_context` to `"context"`,
`user` to `"originationUser"`). -/
def CreateSpaceRunPayload.serialize (p : CreateSpaceRunPayload) : Json :=
  Json.obj [("startTime", Json.num p.start_time),
    ("status", p.status.serialize),
    ("type", p.ty.serialize),
    ("command", Json.str p.command),
    ("repositoryPath", Json.str p.package_inference_root),
    ("context", Json.str p.run_context),
    ("gitBranch", serializeOptStr p.git_branch),
    ("gitSha", serializeOptStr p.git_sha),
    ("originationUser", Json.str p.user),
    ("client", p.client.serialize)]

/-- `CreateSpaceRunPayload::new`. Ambient inputs are passed explicitly:
`start_time_millis` is `start_time.timestamp_millis()` of the supplied
`DateTime<Local>`; `package_inference_root` is the rendered
`AnchoredSystemPath` (its `to_string`), when supplied; `vendor` is the result
of the CI-vendor detector `turborepo_ci::Vendor::infer()` (repo code outside
this source file, modelled per the spec as an optional vendor snapshot). -/
def CreateSpaceRunPayload.new (start_time_millis : Int) (synthesized_command : String)
    (package_inference_root : Option String) (git_branch : Option String)
    (git_sha : Option String) (version : String) (user : String)
    (vendor : Option Vendor) : CreateSpaceRunPayload :=
  let run_context := (vendor.map Vendor.constant).getD "LOCAL"
  { start_time := start_time_millis,
    status := RunStatus.Running,
    command := synthesized_command,
    package_inference_root := package_inference_root.getD "",
    ty := SpaceRunType.Turbo,
    run_context := run_context,
    git_branch := git_branch,
    git_sha := git_sha,
    user := user,
    client := { id := "turbo", name := "Turbo", version := version } }

/-- `FinishSpaceRunPayload`: the run-finish record. -/
structure FinishSpaceRunPayload where
  status : RunStatus
  end_time : Int
  exit_code : Int
deriving DecidableEq

/-- Serde serialization of `FinishSpaceRunPayload`
(`rename_all = "camelCase"`). -/
def FinishSpaceRunPayload.serialize (p : FinishSpaceRunPayload) : Json :=
  Json.obj [("status", p.status.serialize),
    ("endTime", Json.num p.end_time),
    ("exitCode", Json.num p.exit_code)]

/-- `FinishSpaceRunPayload::new`. -/
def FinishSpaceRunPayload.new (end_time : Int) (exit_code : Int) : FinishSpaceRunPayload :=
  { status := RunStatus.Completed, end_time := end_time, exit_code := exit_code }

/-- The immutable client configuration used by `create_request_builder`: base
endpoint and the preflight-enabled flag, fixed at construction. -/
structure APIClient where
  base_url : String
  use_preflight : Bool

/-- Modelled from the spec: `make_url` from the client crate resolves a path
against the client's configured base endpoint (section 4.2 step 1). -/
def APIClient.make_url (c : APIClient) (path : String) : String :=
  c.base_url ++ path

/-- Modelled from the spec: `add_team_params` from the client crate (section
4.2 step 6) — if `team_id` is non-empty it is added as a query parameter, and
if `team_slug` is present it is added as a second query parameter. -/
def APIClient.add_team_params (rb : RequestBuilder) (team_id : String)
    (team_slug : Option String) : RequestBuilder :=
  let rb := if team_id = "" then rb else rb.add_query "teamId" team_id
  match team_slug with
  | some slug => rb.add_query "slug" slug
  | none => rb

/-- `APIClient::create_request_builder`. The outcome of the preflight probe
`do_preflight` (client-crate code, external to this file) is supplied as
`preflight_result`, consulted only when `use_preflight` is set; the result of
`turborepo_ci::Vendor::get_constant()` is supplied as `ci_constant`. The
mutable locals `url` and `allow_auth` of the source become the pair produced
by the preflight branch. -/
def APIClient.create_request_builder (c : APIClient) (url : String)
    (api_auth : APIAuth) (method : Method)
    (preflight_result : Except Error PreflightResponse)
    (ci_constant : Option String) : Except Error RequestBuilder :=
  let url0 := c.make_url url
  let verdict : Except Error (Bool × String) :=
    if c.use_preflight then
      match preflight_result with
      | Except.error e => Except.error e
      | Except.ok preflight_response =>
          Except.ok (preflight_response.allow_authorization_header,
            preflight_response.location)
    else
      Except.ok (true, url0)
  match verdict with
  | Except.error e => Except.error e
  | Except.ok (allow_auth, url1) =>
    let request_builder :=
      (RequestBuilder.request method url1).header "Content-Type" "application/json"
    let request_builder :=
      if allow_auth then
        request_builder.header "Authorization" ("Bearer " ++ api_auth.token)
      else
        request_builder
    let request_builder :=
      APIClient.add_team_params request_builder api_auth.team_id api_auth.team_slug
    let request_builder :=
      match ci_constant with
      | some constant => request_builder.header "x-artifact-client-ci" constant
      | none => request_builder
    Except.ok request_builder

/-- The request assembled by `create_space_run` before submission: the builder
for `POST /v0/spaces/{space_id}/runs` with the payload attached as the JSON
body. -/
def APIClient.create_space_run_request (c : APIClient) (space_id : String)
    (api_auth : APIAuth) (payload : CreateSpaceRunPayload)
    (pre : Except Error PreflightResponse) (ci : Option String) :
    Except Error RequestBuilder :=
  match c.create_request_builder ("/v0/spaces/" ++ space_id ++ "/runs")
      api_auth Method.POST pre ci with
  | Except.error e => Except.error e
  | Except.ok request_builder => Except.ok (request_builder.json payload.serialize)

/-- `APIClient::create_space_run`. The retrying transport
(`retry::make_retryable_request`) is supplied as `send`, and the
deserialization of the response body into a `SpaceRun` as `parse_run`. -/
def APIClient.create_space_run (c : APIClient) (space_id : String)
    (api_auth : APIAuth) (payload : CreateSpaceRunPayload)
    (pre : Except Error PreflightResponse) (ci : Option String)
    (send : RequestBuilder → Except Error Response)
    (parse_run : String → Option SpaceRun) : Except Error SpaceRun :=
  match c.create_space_run_request space_id api_auth payload pre ci with
  | Except.error e => Except.error e
  | Except.ok request_builder =>
    match send request_builder with
    | Except.error e => Except.error e
    | Except.ok r =>
      match r.error_for_status with
      | Except.error e => Except.error e
      | Except.ok response =>
        match parse_run response.body with
        | some run => Except.ok run
        | none => Except.error Error.DeserializationError

/-- The request assembled by `create_task_summary` before submission: the
builder for `POST /v0/spaces/{space_id}/runs/{run_id}/tasks` with the task
record attached as the JSON body. -/
def APIClient.create_task_summary_request (c : APIClient) (space_id : String)
    (run_id : String) (api_auth : APIAuth) (task : SpaceTaskSummary)
    (pre : Except Error PreflightResponse) (ci : Option String) :
    Except Error RequestBuilder :=
  match c.create_request_builder
      ("/v0/spaces/" ++ space_id ++ "/runs/" ++ run_id ++ "/tasks")
      api_auth Method.POST pre ci with
  | Except.error e => Except.error e
  | Except.ok request_builder => Except.ok (request_builder.json task.serialize)

/-- `APIClient::create_task_summary`: submit the task record and discard the
body on success. -/
def APIClient.create_task_summary (c : APIClient) (space_id : String)
    (run_id : String) (api_auth : APIAuth) (task : SpaceTaskSummary)
    (pre : Except Error PreflightResponse) (ci : Option String)
    (send : RequestBuilder → Except Error Response) : Except Error Unit :=
  match c.create_task_summary_request space_id run_id api_auth task pre ci with
  | Except.error e => Except.error e
  | Except.ok request_builder =>
    match send request_builder with
    | Except.error e => Except.error e
    | Except.ok r =>
      match r.error_for_status with
      | Except.error e => Except.error e
      | Except.ok _ => Except.ok ()

/-- The request assembled by `finish_space_run` before submission: the builder
for `PATCH /v0/spaces/{space_id}/runs/{run_id}` with the internally built
`FinishSpaceRunPayload` attached as the JSON body. -/
def APIClient.finish_space_run_request (c : APIClient) (space_id : String)
    (run_id : String) (api_auth : APIAuth) (end_time : Int) (exit_code : Int)
    (pre : Except Error PreflightResponse) (ci : Option String) :
    Except Error RequestBuilder :=
  let payload := FinishSpaceRunPayload.new end_time exit_code
  match c.create_request_builder ("/v0/spaces/" ++ space_id ++ "/runs/" ++ run_id)
      api_auth Method.PATCH pre ci with
  | Except.error e => Except.error e
  | Except.ok request_builder => Except.ok (request_builder.json payload.serialize)

/-- `APIClient::finish_space_run`: build the finish payload from the two
scalar inputs, submit, and discard the body on success. -/
def APIClient.finish_space_run (c : APIClient) (space_id : String)
    (run_id : String) (api_auth : APIAuth) (end_time : Int) (exit_code : Int)
    (pre : Except Error PreflightResponse) (ci : Option String)
    (send : RequestBuilder → Except Error Response) : Except Error Unit :=
  match c.finish_space_run_request space_id run_id api_auth end_time exit_code pre ci with
  | Except.error e => Except.error e
  | Except.ok request_builder =>
    match send request_builder with
    | Except.error e => Except.error e
    | Except.ok r =>
      match r.error_for_status with
      | Except.error e => Except.error e
      | Except.ok _ => Except.ok ()

/-- The request builder assembled by the success branch of
`create_request_builder`, given the effective verdict (`allow_auth`, `url1`):
JSON content type, conditional Authorization header, team parameters, and the
conditional CI provenance header. -/
def assembled (api_auth : APIAuth) (method : Method) (ci_constant : Option String)
    (allow_auth : Bool) (url1 : String) : RequestBuilder :=
  let request_builder :=
    (RequestBuilder.request method url1).header "Content-Type" "application/json"
  let request_builder :=
    if allow_auth then
      request_builder.header "Authorization" ("Bearer " ++ api_auth.token)
    else
      request_builder
  let request_builder :=
    APIClient.add_team_params request_builder api_auth.team_id api_auth.team_slug
  match ci_constant with
  | some constant => request_builder.header "x-artifact-client-ci" constant
  | none => request_builder

/-- A client with preflight mode enabled, for concrete instantiations. -/
def exClientPre : APIClient :=
  { base_url := "https://vercel.com/api", use_preflight := true }

/-- A client with preflight mode disabled, for concrete instantiations. -/
def exClientNoPre : APIClient :=
  { base_url := "https://vercel.com/api", use_preflight := false }

/-- An auth context with both team id and team slug, for concrete
instantiations. -/
def exAuth : APIAuth :=
  { token := "tok", team_id := "team_1", team_slug := some "my-team" }

/-- An auth context with empty team id and no team slug, for concrete
instantiations. -/
def exAuthBare : APIAuth :=
  { token := "tok", team_id := "", team_slug := none }

/-- A concrete run-start payload, for concrete instantiations. -/
def exPayload : CreateSpaceRunPayload :=
  CreateSpaceRunPayload.new 1700000000000 "turbo run build" none none none "1.10.0" "u" none

/-- A concrete task record, for concrete instantiations. -/
def exTask : SpaceTaskSummary :=
  { key := "k", name := "build", workspace := "web", hash := "h",
    start_time := 1, end_time := 2,
    cache := { status := "MISS", source := none, time_saved := 0 },
    exit_code := 0, dependencies := [], dependents := [], logs := "" }

theorem add_team_params_url (rb : RequestBuilder) (t : String) (s : Option String) :
    (APIClient.add_team_params rb t s).url = rb.url := by
  cases s <;> simp only [APIClient.add_team_params] <;> split <;> rfl

theorem add_team_params_method (rb : RequestBuilder) (t : String) (s : Option String) :
    (APIClient.add_team_params rb t s).method = rb.method := by
  cases s <;> simp only [APIClient.add_team_params] <;> split <;> rfl

theorem add_team_params_headers (rb : RequestBuilder) (t : String) (s : Option String) :
    (APIClient.add_team_params rb t s).headers = rb.headers := by
  cases s <;> simp only [APIClient.add_team_params] <;> split <;> rfl

theorem add_team_params_query (rb : RequestBuilder) (t : String) (s : Option String) :
    (APIClient.add_team_params rb t s).query =
      rb.query ++ ((if t = "" then [] else [("teamId", t)]) ++
        (match s with | some slug => [("slug", slug)] | none => [])) := by
  cases s <;> simp only [APIClient.add_team_params] <;> split <;>
    simp [RequestBuilder.add_query]

theorem create_request_builder_eq (c : APIClient) (u : String) (a : APIAuth)
    (m : Method) (pre : Except Error PreflightResponse) (ci : Option String) :
    c.create_request_builder u a m pre ci =
      (if c.use_preflight then
        match pre with
        | Except.error e => Except.error e
        | Except.ok v =>
            Except.ok (assembled a m ci v.allow_authorization_header v.location)
      else
        Except.ok (assembled a m ci true (c.make_url u))) := by
  cases hc : c.use_preflight <;> cases pre <;>
    simp [APIClient.create_request_builder, assembled, hc]

theorem assembled_url (a : APIAuth) (m : Method) (ci : Option String)
    (allow : Bool) (u1 : String) : (assembled a m ci allow u1).url = u1 := by
  cases ci <;> cases allow <;>
    simp [assembled, add_team_params_url, RequestBuilder.header,
      RequestBuilder.request]

theorem assembled_method (a : APIAuth) (m : Method) (ci : Option String)
    (allow : Bool) (u1 : String) : (assembled a m ci allow u1).method = m := by
  cases ci <;> cases allow <;>
    simp [assembled, add_team_params_method, RequestBuilder.header,
      RequestBuilder.request]

theorem assembled_headers (a : APIAuth) (m : Method) (ci : Option String)
    (allow : Bool) (u1 : String) :
    (assembled a m ci allow u1).headers =
      [("Content-Type", "application/json")] ++
        (if allow then [("Authorization", "Bearer " ++ a.token)] else []) ++
        (match ci with | some k => [("x-artifact-client-ci", k)] | none => []) := by
  cases ci <;> cases allow <;>
    simp [assembled, add_team_params_headers, RequestBuilder.header,
      RequestBuilder.request]

theorem assembled_query (a : APIAuth) (m : Method) (ci : Option String)
    (allow : Bool) (u1 : String) :
    (assembled a m ci allow u1).query =
      (if a.team_id = "" then [] else [("teamId", a.team_id)]) ++
        (match a.team_slug with | some slug => [("slug", slug)] | none => []) := by
  cases ci <;> cases allow <;>
    simp [assembled, add_team_params_query, RequestBuilder.header,
      RequestBuilder.request]

/-- C1 counterexample: at end_time 1700000000000 and exit_code -9, the record
built by `finish_space_run` does not serialize its status field as the
"Completed" literal — serde's lowercase renaming emits "completed". -/
theorem finish_status_not_uppercase_literal :
    ¬ ((FinishSpaceRunPayload.new 1700000000000 (-9)).serialize.lookup "status"
      = some (Json.str "Completed")) := by
  intro h
  have he : (FinishSpaceRunPayload.new 1700000000000 (-9)).serialize.lookup "status"
      = some (Json.str "completed") := rfl
  rw [he] at h
  injection h with h
  injection h with h
  exact absurd h (by decide)

/-- C1 (amended): for every end_time and every exit_code (including negative
values), the record built internally by `finish_space_run` has its status
field fixed to the `Completed` variant, which serializes as the lowercase
"completed" literal. -/
theorem finish_status_always_completed (end_time exit_code : Int) :
    (FinishSpaceRunPayload.new end_time exit_code).status = RunStatus.Completed ∧
    (FinishSpaceRunPayload.new end_time exit_code).serialize.lookup "status"
      = some (Json.str "completed") :=
  ⟨rfl, rfl⟩

/-- C5 counterexample: `FinishSpaceRunPayload::new` accepts a negative
end_time and stores it unchanged, so the record built by `finish_space_run`
does not always carry non-negative timestamps. -/
theorem finish_end_time_can_be_negative :
    (FinishSpaceRunPayload.new (-1) 0).end_time = -1 ∧
    ¬ (0 ≤ (FinishSpaceRunPayload.new (-1) 0).end_time) := by
  exact ⟨rfl, by decide⟩

/-- C5 (amended): the constructors store the caller-supplied timestamps
unchanged and perform no validation, so a record's timestamps are non-negative
exactly when the supplied inputs are; in particular the record built by
`finish_space_run` carries a non-negative end_time whenever the caller-supplied
end_time is non-negative, and can carry a negative one otherwise. -/
theorem timestamps_passed_through_unvalidated (end_time exit_code : Int)
    (st : Int) (cmd : String) (root gb gs : Option String) (ver usr : String)
    (vendor : Option Vendor) :
    (FinishSpaceRunPayload.new end_time exit_code).end_time = end_time ∧
    (0 ≤ end_time → 0 ≤ (FinishSpaceRunPayload.new end_time exit_code).end_time) ∧
    (CreateSpaceRunPayload.new st cmd root gb gs ver usr vendor).start_time = st ∧
    (0 ≤ st →
      0 ≤ (CreateSpaceRunPayload.new st cmd root gb gs ver usr vendor).start_time) :=
  ⟨rfl, fun h => h, rfl, fun h => h⟩

/-- Witness for C5's amended theorem at end_time 1700000000000, exit_code 2,
start_time 5. -/
theorem timestamps_passed_through_unvalidated_witness :
    0 ≤ (FinishSpaceRunPayload.new 1700000000000 2).end_time ∧
    0 ≤ (CreateSpaceRunPayload.new 5 "turbo run build" none none none
        "1.10.0" "u" none).start_time :=
  ⟨(timestamps_passed_through_unvalidated 1700000000000 2 5 "turbo run build"
      none none none "1.10.0" "u" none).2.1 (by decide),
   (timestamps_passed_through_unvalidated 1700000000000 2 5 "turbo run build"
      none none none "1.10.0" "u" none).2.2.2 (by decide)⟩

/-- C9: for every input to `CreateSpaceRunPayload::new`, the resulting record
has status fixed to Running, run type fixed to the single Turbo constant,
run_context equal to the recognized CI vendor's constant when one is detected
and the literal "LOCAL" otherwise, and package_inference_root equal to the
rendered path when supplied and the empty string when absent. -/
theorem create_payload_fixed_fields (st : Int) (cmd : String)
    (root gb gs : Option String) (ver usr : String) (vendor : Option Vendor) :
    (CreateSpaceRunPayload.new st cmd root gb gs ver usr vendor).status
      = RunStatus.Running ∧
    (CreateSpaceRunPayload.new st cmd root gb gs ver usr vendor).ty
      = SpaceRunType.Turbo ∧
    (∀ v, vendor = some v →
      (CreateSpaceRunPayload.new st cmd root gb gs ver usr vendor).run_context
        = v.constant) ∧
    (vendor = none →
      (CreateSpaceRunPayload.new st cmd root gb gs ver usr vendor).run_context
        = "LOCAL") ∧
    (∀ p, root = some p →
      (CreateSpaceRunPayload.new st cmd root gb gs ver usr
        vendor).package_inference_root = p) ∧
    (root = none →
      (CreateSpaceRunPayload.new st cmd root gb gs ver usr
        vendor).package_inference_root = "") := by
  refine ⟨rfl, rfl, ?_, ?_, ?_, ?_⟩
  · intro v hv; subst hv; rfl
  · intro hv; subst hv; rfl
  · intro p hp; subst hp; rfl
  · intro hp; subst hp; rfl

/-- Witness for C9 at concrete inputs: a detected vendor yields its constant,
no vendor yields "LOCAL"; a supplied root is kept, an absent one becomes the
empty string. -/
theorem create_payload_fixed_fields_witness :
    (CreateSpaceRunPayload.new 5 "turbo run build" (some "apps/web") none none
      "1.10.0" "u" (some { constant := "GITHUB_ACTIONS" })).run_context
      = "GITHUB_ACTIONS" ∧
    (CreateSpaceRunPayload.new 5 "turbo run build" none none none "1.10.0" "u"
      none).run_context = "LOCAL" ∧
    (CreateSpaceRunPayload.new 5 "turbo run build" (some "apps/web") none none
      "1.10.0" "u" none).package_inference_root = "apps/web" ∧
    (CreateSpaceRunPayload.new 5 "turbo run build" none none none "1.10.0" "u"
      none).package_inference_root = "" :=
  ⟨(create_payload_fixed_fields 5 "turbo run build" (some "apps/web") none none
      "1.10.0" "u" (some { constant := "GITHUB_ACTIONS" })).2.2.1
      { constant := "GITHUB_ACTIONS" } rfl,
   (create_payload_fixed_fields 5 "turbo run build" none none none "1.10.0" "u"
      none).2.2.2.1 rfl,
   (create_payload_fixed_fields 5 "turbo run build" (some "apps/web") none none
      "1.10.0" "u" none).2.2.2.2.1 "apps/web" rfl,
   (create_payload_fixed_fields 5 "turbo run build" none none none "1.10.0" "u"
      none).2.2.2.2.2 rfl⟩

/-- C10: the JSON serialization of every `CreateSpaceRunPayload` maps
package_inference_root to the key "repositoryPath", user to
"originationUser", run_context to "context", serializes the run type as the
string "TURBO", serializes the status in lowercase ("running"/"completed"),
and every payload built by `new` fixes the client descriptor to id "turbo"
and name "Turbo". -/
theorem create_payload_serialization_keys (p : CreateSpaceRunPayload)
    (st : Int) (cmd : String) (root gb gs : Option String) (ver usr : String)
    (vendor : Option Vendor) :
    p.serialize.lookup "repositoryPath"
      = some (Json.str p.package_inference_root) ∧
    p.serialize.lookup "originationUser" = some (Json.str p.user) ∧
    p.serialize.lookup "context" = some (Json.str p.run_context) ∧
    p.serialize.lookup "type" = some (Json.str "TURBO") ∧
    p.serialize.lookup "status" = some p.status.serialize ∧
    RunStatus.serialize RunStatus.Running = Json.str "running" ∧
    RunStatus.serialize RunStatus.Completed = Json.str "completed" ∧
    (CreateSpaceRunPayload.new st cmd root gb gs ver usr vendor).client.id
      = "turbo" ∧
    (CreateSpaceRunPayload.new st cmd root gb gs ver usr vendor).client.name
      = "Turbo" ∧
    p.serialize.lookup "client"
      = some (Json.obj [("id", Json.str p.client.id),
          ("name", Json.str p.client.name),
          ("version", Json.str p.client.version)]) := by
  obtain ⟨pst, pstatus, pty, pcmd, proot, pctx, pgb, pgs, pusr, pclient⟩ := p
  cases pty
  exact ⟨rfl, rfl, rfl, rfl, rfl, rfl, rfl, rfl, rfl, rfl⟩

theorem assembled_auth_header_mem (a : APIAuth) (m : Method) (ci : Option String)
    (u1 : String) :
    ("Authorization", "Bearer " ++ a.token) ∈ (assembled a m ci true u1).headers := by
  rw [assembled_headers]
  cases ci <;> simp

theorem assembled_no_auth_header (a : APIAuth) (m : Method) (ci : Option String)
    (u1 : String) (val : String) :
    ("Authorization", val) ∉ (assembled a m ci false u1).headers := by
  rw [assembled_headers]
  cases ci <;> simp

/-- C2: if the effective preflight verdict allows the Authorization header,
the assembled request carries Authorization: Bearer token from the auth
context; if it forbids it, no Authorization header is present; and when
preflight mode is disabled, no probe is consulted (the result does not depend
on the probe's outcome) and, given a non-empty token, the Authorization header
is always attached. -/
theorem auth_header_follows_preflight_verdict (c : APIClient) (u : String)
    (a : APIAuth) (m : Method) (pre : Except Error PreflightResponse)
    (ci : Option String) :
    (c.use_preflight = true → ∀ v, pre = Except.ok v →
      (v.allow_authorization_header = true →
        ∃ rb, c.create_request_builder u a m pre ci = Except.ok rb ∧
          ("Authorization", "Bearer " ++ a.token) ∈ rb.headers) ∧
      (v.allow_authorization_header = false →
        ∃ rb, c.create_request_builder u a m pre ci = Except.ok rb ∧
          ∀ val, ("Authorization", val) ∉ rb.headers)) ∧
    (c.use_preflight = false →
      (∀ pre1 pre2, c.create_request_builder u a m pre1 ci
        = c.create_request_builder u a m pre2 ci) ∧
      (a.token ≠ "" →
        ∃ rb, c.create_request_builder u a m pre ci = Except.ok rb ∧
          ("Authorization", "Bearer " ++ a.token) ∈ rb.headers)) := by
  constructor
  · intro hc v hv
    subst hv
    rw [create_request_builder_eq, hc]
    constructor
    · intro hv1
      refine ⟨_, rfl, ?_⟩
      rw [hv1]
      exact assembled_auth_header_mem a m ci v.location
    · intro hv1
      refine ⟨_, rfl, ?_⟩
      intro val
      rw [hv1]
      exact assembled_no_auth_header a m ci v.location val
  · intro hc
    constructor
    · intro pre1 pre2
      rw [create_request_builder_eq c u a m pre1 ci,
        create_request_builder_eq c u a m pre2 ci, hc]
      rfl
    · intro _
      rw [create_request_builder_eq, hc]
      exact ⟨_, rfl, assembled_auth_header_mem a m ci (c.make_url u)⟩

/-- Witness for C2: with preflight enabled and a verdict forbidding the
header, the assembled request has no Authorization header; with preflight
disabled and the probe outcome an error (ignored), the Authorization header
carrying the bearer token is attached. -/
theorem auth_header_follows_preflight_verdict_witness :
    (∃ rb, exClientPre.create_request_builder "/v0/spaces/s1/runs" exAuth
        Method.POST
        (Except.ok { allow_authorization_header := false, location := "https://vercel.com/api2" }) none = Except.ok rb ∧
      ∀ val, ("Authorization", val) ∉ rb.headers) ∧
    (∃ rb, exClientNoPre.create_request_builder "/v0/spaces/s1/runs" exAuth
        Method.POST (Except.error Error.TransportError) none = Except.ok rb ∧
      ("Authorization", "Bearer " ++ exAuth.token) ∈ rb.headers) :=
  ⟨((auth_header_follows_preflight_verdict exClientPre "/v0/spaces/s1/runs"
      exAuth Method.POST
      (Except.ok { allow_authorization_header := false, location := "https://vercel.com/api2" }) none).1 rfl
      { allow_authorization_header := false, location := "https://vercel.com/api2" } rfl).2 rfl,
   ((auth_header_follows_preflight_verdict exClientNoPre "/v0/spaces/s1/runs"
      exAuth Method.POST (Except.error Error.TransportError) none).2 rfl).2
      (by decide)⟩

/-- C3: `create_request_builder` fails if and only if preflight mode is
enabled and the probe's outcome is an error, in which case that error is
propagated unchanged (no fallback to sending without preflight); when the
probe succeeds, or preflight mode is disabled, it returns a builder and
cannot fail. -/
theorem create_request_builder_failure_iff (c : APIClient) (u : String)
    (a : APIAuth) (m : Method) (pre : Except Error PreflightResponse)
    (ci : Option String) :
    (c.use_preflight = true →
      (∀ e, pre = Except.error e →
        c.create_request_builder u a m pre ci = Except.error e) ∧
      (∀ e, c.create_request_builder u a m pre ci = Except.error e →
        pre = Except.error e) ∧
      (∀ v, pre = Except.ok v →
        ∃ rb, c.create_request_builder u a m pre ci = Except.ok rb)) ∧
    (c.use_preflight = false →
      ∃ rb, c.create_request_builder u a m pre ci = Except.ok rb) := by
  rw [create_request_builder_eq]
  cases hc : c.use_preflight <;> cases pre <;> simp [hc]

/-- Witness for C3: with preflight enabled and a failing probe, the builder
construction fails with the probe's error. -/
theorem create_request_builder_failure_iff_witness :
    exClientPre.create_request_builder "/v0/spaces/s1/runs" exAuth Method.POST
      (Except.error Error.TransportError) none
      = Except.error Error.TransportError :=
  ((create_request_builder_failure_iff exClientPre "/v0/spaces/s1/runs" exAuth
    Method.POST (Except.error Error.TransportError) none).1 rfl).1
    Error.TransportError rfl

/-- C4: when preflight mode is enabled, the assembled request targets the
verdict's location (even when it differs from the URL resolved from the
original path); when preflight mode is disabled, it targets the URL resolved
from the original path against the configured base endpoint. -/
theorem request_targets_verdict_location (c : APIClient) (u : String)
    (a : APIAuth) (m : Method) (pre : Except Error PreflightResponse)
    (ci : Option String) :
    (c.use_preflight = true → ∀ v, pre = Except.ok v →
      ∃ rb, c.create_request_builder u a m pre ci = Except.ok rb ∧
        rb.url = v.location) ∧
    (c.use_preflight = false →
      ∃ rb, c.create_request_builder u a m pre ci = Except.ok rb ∧
        rb.url = c.make_url u) := by
  constructor
  · intro hc v hv
    subst hv
    rw [create_request_builder_eq, hc]
    exact ⟨_, rfl, assembled_url a m ci v.allow_authorization_header v.location⟩
  · intro hc
    rw [create_request_builder_eq, hc]
    exact ⟨_, rfl, assembled_url a m ci true (c.make_url u)⟩

/-- Witness for C4: with preflight enabled the request targets the verdict's
(different) location; with preflight disabled it targets the base endpoint
joined with the original path. -/
theorem request_targets_verdict_location_witness :
    (∃ rb, exClientPre.create_request_builder "/v0/spaces/s1/runs" exAuth
        Method.POST
        (Except.ok { allow_authorization_header := true, location := "https://other.example/loc" }) none = Except.ok rb ∧
      rb.url = "https://other.example/loc") ∧
    (∃ rb, exClientNoPre.create_request_builder "/v0/spaces/s1/runs" exAuth
        Method.POST (Except.error Error.TransportError) none = Except.ok rb ∧
      rb.url = exClientNoPre.make_url "/v0/spaces/s1/runs") :=
  ⟨(request_targets_verdict_location exClientPre "/v0/spaces/s1/runs" exAuth
      Method.POST
      (Except.ok { allow_authorization_header := true, location := "https://other.example/loc" }) none).1 rfl
      { allow_authorization_header := true, location := "https://other.example/loc" } rfl,
   (request_targets_verdict_location exClientNoPre "/v0/spaces/s1/runs" exAuth
      Method.POST (Except.error Error.TransportError) none).2 rfl⟩

/-- C8: with empty team_id and absent team_slug the assembled request carries
no team query parameters; with team_id non-empty and team_slug present, both
appear as query parameters. -/
theorem team_params_presence (c : APIClient) (u : String) (a : APIAuth)
    (m : Method) (pre : Except Error PreflightResponse) (ci : Option String) :
    (a.team_id = "" → a.team_slug = none →
      ∀ rb, c.create_request_builder u a m pre ci = Except.ok rb →
        rb.query = []) ∧
    (a.team_id ≠ "" → ∀ s, a.team_slug = some s →
      ∀ rb, c.create_request_builder u a m pre ci = Except.ok rb →
        ("teamId", a.team_id) ∈ rb.query ∧ ("slug", s) ∈ rb.query) := by
  rw [create_request_builder_eq]
  constructor
  · intro h1 h2 rb hrb
    cases hc : c.use_preflight <;> rw [hc] at hrb
    · injection hrb with h
      subst h
      rw [assembled_query, h1, h2]
      simp
    · cases pre with
      | error e => exact Except.noConfusion hrb
      | ok v =>
        injection hrb with h
        subst h
        rw [assembled_query, h1, h2]
        simp
  · intro h1 s h2 rb hrb
    cases hc : c.use_preflight <;> rw [hc] at hrb
    · injection hrb with h
      subst h
      rw [assembled_query, h2, if_neg h1]
      simp
    · cases pre with
      | error e => exact Except.noConfusion hrb
      | ok v =>
        injection hrb with h
        subst h
        rw [assembled_query, h2, if_neg h1]
        simp

/-- Witness for C8: the bare auth context yields a request without team query
parameters; the full auth context yields a request carrying both. -/
theorem team_params_presence_witness :
    (RequestBuilder.query
      { method := Method.GET, url := "https://vercel.com/api" ++ "/p",
        headers := [("Content-Type", "application/json"),
          ("Authorization", "Bearer " ++ "tok")],
        query := [], body := none } = []) ∧
    (("teamId", exAuth.team_id) ∈ RequestBuilder.query
      { method := Method.GET, url := "https://vercel.com/api" ++ "/p",
        headers := [("Content-Type", "application/json"),
          ("Authorization", "Bearer " ++ "tok")],
        query := [("teamId", "team_1"), ("slug", "my-team")], body := none } ∧
      ("slug", "my-team") ∈ RequestBuilder.query
      { method := Method.GET, url := "https://vercel.com/api" ++ "/p",
        headers := [("Content-Type", "application/json"),
          ("Authorization", "Bearer " ++ "tok")],
        query := [("teamId", "team_1"), ("slug", "my-team")], body := none }) :=
  ⟨(team_params_presence exClientNoPre "/p" exAuthBare Method.GET
      (Except.error Error.TransportError) none).1 rfl rfl _ rfl,
   (team_params_presence exClientNoPre "/p" exAuth Method.GET
      (Except.error Error.TransportError) none).2 (by decide) "my-team" rfl _ rfl⟩

theorem create_request_builder_ok_method (c : APIClient) (u : String)
    (a : APIAuth) (m : Method) (pre : Except Error PreflightResponse)
    (ci : Option String) (rb : RequestBuilder)
    (h : c.create_request_builder u a m pre ci = Except.ok rb) :
    rb.method = m := by
  rw [create_request_builder_eq] at h
  cases hc : c.use_preflight <;> cases pre <;> rw [hc] at h <;> simp at h <;>
    (try subst h) <;> (try exact assembled_method _ _ _ _ _)

/-- C7: `create_space_run` builds its request as POST to
/v0/spaces/{space_id}/runs, `create_task_summary` as POST to
/v0/spaces/{space_id}/runs/{run_id}/tasks, and `finish_space_run` as PATCH to
/v0/spaces/{space_id}/runs/{run_id}; with preflight disabled the target URL is
exactly the fixed path resolved against the configured base endpoint. -/
theorem operations_use_fixed_paths_and_methods (c : APIClient)
    (space_id run_id : String) (a : APIAuth) (payload : CreateSpaceRunPayload)
    (task : SpaceTaskSummary) (end_time exit_code : Int)
    (pre : Except Error PreflightResponse) (ci : Option String) :
    (∀ rb, c.create_space_run_request space_id a payload pre ci = Except.ok rb →
      rb.method = Method.POST) ∧
    (∀ rb, c.create_task_summary_request space_id run_id a task pre ci
        = Except.ok rb → rb.method = Method.POST) ∧
    (∀ rb, c.finish_space_run_request space_id run_id a end_time exit_code pre ci
        = Except.ok rb → rb.method = Method.PATCH) ∧
    (c.use_preflight = false →
      (∃ rb, c.create_space_run_request space_id a payload pre ci = Except.ok rb ∧
        rb.url = c.base_url ++ ("/v0/spaces/" ++ space_id ++ "/runs")) ∧
      (∃ rb, c.create_task_summary_request space_id run_id a task pre ci
          = Except.ok rb ∧
        rb.url = c.base_url
          ++ ("/v0/spaces/" ++ space_id ++ "/runs/" ++ run_id ++ "/tasks")) ∧
      (∃ rb, c.finish_space_run_request space_id run_id a end_time exit_code pre ci
          = Except.ok rb ∧
        rb.url = c.base_url ++ ("/v0/spaces/" ++ space_id ++ "/runs/" ++ run_id))) := by
  refine ⟨?_, ?_, ?_, ?_⟩
  · intro rb h
    simp only [APIClient.create_space_run_request] at h
    cases hcr : c.create_request_builder ("/v0/spaces/" ++ space_id ++ "/runs")
        a Method.POST pre ci with
    | error e => rw [hcr] at h; exact Except.noConfusion h
    | ok rb0 =>
      rw [hcr] at h
      injection h with h
      subst h
      exact create_request_builder_ok_method c _ a Method.POST pre ci rb0 hcr
  · intro rb h
    simp only [APIClient.create_task_summary_request] at h
    cases hcr : c.create_request_builder
        ("/v0/spaces/" ++ space_id ++ "/runs/" ++ run_id ++ "/tasks")
        a Method.POST pre ci with
    | error e => rw [hcr] at h; exact Except.noConfusion h
    | ok rb0 =>
      rw [hcr] at h
      injection h with h
      subst h
      exact create_request_builder_ok_method c _ a Method.POST pre ci rb0 hcr
  · intro rb h
    simp only [APIClient.finish_space_run_request] at h
    cases hcr : c.create_request_builder
        ("/v0/spaces/" ++ space_id ++ "/runs/" ++ run_id)
        a Method.PATCH pre ci with
    | error e => rw [hcr] at h; exact Except.noConfusion h
    | ok rb0 =>
      rw [hcr] at h
      injection h with h
      subst h
      exact create_request_builder_ok_method c _ a Method.PATCH pre ci rb0 hcr
  · intro hc
    refine ⟨?_, ?_, ?_⟩
    · simp only [APIClient.create_space_run_request]
      rw [create_request_builder_eq, hc]
      refine ⟨_, rfl, ?_⟩
      show (assembled a Method.POST ci true
          (c.make_url ("/v0/spaces/" ++ space_id ++ "/runs"))).url
        = c.base_url ++ ("/v0/spaces/" ++ space_id ++ "/runs")
      simp [assembled_url, APIClient.make_url]
    · simp only [APIClient.create_task_summary_request]
      rw [create_request_builder_eq, hc]
      refine ⟨_, rfl, ?_⟩
      show (assembled a Method.POST ci true
          (c.make_url ("/v0/spaces/" ++ space_id ++ "/runs/" ++ run_id ++ "/tasks"))).url
        = c.base_url ++ ("/v0/spaces/" ++ space_id ++ "/runs/" ++ run_id ++ "/tasks")
      simp [assembled_url, APIClient.make_url]
    · simp only [APIClient.finish_space_run_request]
      rw [create_request_builder_eq, hc]
      refine ⟨_, rfl, ?_⟩
      show (assembled a Method.PATCH ci true
          (c.make_url ("/v0/spaces/" ++ space_id ++ "/runs/" ++ run_id))).url
        = c.base_url ++ ("/v0/spaces/" ++ space_id ++ "/runs/" ++ run_id)
      simp [assembled_url, APIClient.make_url]

/-- Witness for C7 with preflight disabled at concrete ids: the three
assembled requests target exactly the fixed paths resolved against the base
endpoint. -/
theorem operations_use_fixed_paths_and_methods_witness :
    (∃ rb, exClientNoPre.create_space_run_request "s1" exAuthBare exPayload
        (Except.error Error.TransportError) none = Except.ok rb ∧
      rb.url = exClientNoPre.base_url ++ ("/v0/spaces/" ++ "s1" ++ "/runs")) ∧
    (∃ rb, exClientNoPre.create_task_summary_request "s1" "r1" exAuthBare exTask
        (Except.error Error.TransportError) none = Except.ok rb ∧
      rb.url = exClientNoPre.base_url
        ++ ("/v0/spaces/" ++ "s1" ++ "/runs/" ++ "r1" ++ "/tasks")) ∧
    (∃ rb, exClientNoPre.finish_space_run_request "s1" "r1" exAuthBare 1 0
        (Except.error Error.TransportError) none = Except.ok rb ∧
      rb.url = exClientNoPre.base_url ++ ("/v0/spaces/" ++ "s1" ++ "/runs/" ++ "r1")) :=
  (operations_use_fixed_paths_and_methods exClientNoPre "s1" "r1" exAuthBare
    exPayload exTask 1 0 (Except.error Error.TransportError) none).2.2.2 rfl

/-- C6: for each reporting operation, when the assembled request is sent and
the response has a non-2xx status, the operation fails with the classified
remote-rejection error carrying the status and body; on a 2xx response,
`create_space_run` returns the deserialized run handle (or a distinct
deserialization error when the body does not parse), while
`create_task_summary` and `finish_space_run` discard the body and return unit
success. -/
theorem operations_classify_responses (c : APIClient) (space_id run_id : String)
    (a : APIAuth) (payload : CreateSpaceRunPayload) (task : SpaceTaskSummary)
    (end_time exit_code : Int) (pre : Except Error PreflightResponse)
    (ci : Option String) (send : RequestBuilder → Except Error Response)
    (parse_run : String → Option SpaceRun)
    (rb1 rb2 rb3 : RequestBuilder) (resp : Response)
    (h1 : c.create_space_run_request space_id a payload pre ci = Except.ok rb1)
    (h2 : c.create_task_summary_request space_id run_id a task pre ci
      = Except.ok rb2)
    (h3 : c.finish_space_run_request space_id run_id a end_time exit_code pre ci
      = Except.ok rb3) :
    (send rb1 = Except.ok resp → resp.is_success = false →
      c.create_space_run space_id a payload pre ci send parse_run
        = Except.error (Error.StatusError resp.status resp.body)) ∧
    (send rb1 = Except.ok resp → resp.is_success = true →
      (∀ run, parse_run resp.body = some run →
        c.create_space_run space_id a payload pre ci send parse_run
          = Except.ok run) ∧
      (parse_run resp.body = none →
        c.create_space_run space_id a payload pre ci send parse_run
          = Except.error Error.DeserializationError)) ∧
    (send rb2 = Except.ok resp → resp.is_success = false →
      c.create_task_summary space_id run_id a task pre ci send
        = Except.error (Error.StatusError resp.status resp.body)) ∧
    (send rb2 = Except.ok resp → resp.is_success = true →
      c.create_task_summary space_id run_id a task pre ci send = Except.ok ()) ∧
    (send rb3 = Except.ok resp → resp.is_success = false →
      c.finish_space_run space_id run_id a end_time exit_code pre ci send
        = Except.error (Error.StatusError resp.status resp.body)) ∧
    (send rb3 = Except.ok resp → resp.is_success = true →
      c.finish_space_run space_id run_id a end_time exit_code pre ci send
        = Except.ok ()) := by
  refine ⟨?_, ?_, ?_, ?_, ?_, ?_⟩
  · intro hs hfail
    simp [APIClient.create_space_run, h1, hs, Response.error_for_status, hfail]
  · intro hs hsucc
    constructor
    · intro run hr
      simp [APIClient.create_space_run, h1, hs, Response.error_for_status,
        hsucc, hr]
    · intro hr
      simp [APIClient.create_space_run, h1, hs, Response.error_for_status,
        hsucc, hr]
  · intro hs hfail
    simp [APIClient.create_task_summary, h2, hs, Response.error_for_status, hfail]
  · intro hs hsucc
    simp [APIClient.create_task_summary, h2, hs, Response.error_for_status, hsucc]
  · intro hs hfail
    simp [APIClient.finish_space_run, h3, hs, Response.error_for_status, hfail]
  · intro hs hsucc
    simp [APIClient.finish_space_run, h3, hs, Response.error_for_status, hsucc]

/-- Witness for C6: with a transport delivering a 503 response,
`create_space_run` fails with the classified remote rejection carrying status
503 and the body; with a transport delivering a 200 response,
`finish_space_run` returns unit success. -/
theorem operations_classify_responses_witness :
    exClientNoPre.create_space_run "s1" exAuthBare exPayload
      (Except.error Error.TransportError) none
      (fun _ => Except.ok { status := 503, body := "unavailable" })
      (fun _ => none)
      = Except.error (Error.StatusError 503 "unavailable") ∧
    exClientNoPre.finish_space_run "s1" "r1" exAuthBare 1700000000000 0
      (Except.error Error.TransportError) none
      (fun _ => Except.ok { status := 200, body := "" })
      = Except.ok () :=
  ⟨(operations_classify_responses exClientNoPre "s1" "r1" exAuthBare exPayload
      exTask 1700000000000 0 (Except.error Error.TransportError) none
      (fun _ => Except.ok { status := 503, body := "unavailable" })
      (fun _ => none) _ _ _ { status := 503, body := "unavailable" }
      rfl rfl rfl).1 rfl (by decide),
   (operations_classify_responses exClientNoPre "s1" "r1" exAuthBare exPayload
      exTask 1700000000000 0 (Except.error Error.TransportError) none
      (fun _ => Except.ok { status := 200, body := "" })
      (fun _ => none) _ _ _ { status := 200, body := "" }
      rfl rfl rfl).2.2.2.2.2 rfl (by decide)⟩
